import Mathlib

/-!
# AnacondaMountpointSelector

A shallow embedding of `widgets/src/MountpointSelector.c`: the three string
properties of the widget (each stored only as the content of a label), the
construction code, the property accessors and the focus handler.

The widget's own functions are translated line by line.  The toolkit calls
they make (GLib's markup escaping, the label's markup parser, the widget state
flags) are not part of this repository; each is given by a small executable
model whose doc comment says so.
-/

namespace MountpointSelector

/-! ## Constants of the source file -/

/-- Property id of `name`, first enumerator of the anonymous enum (value 1). -/
def PROP_NAME : Nat := 1

/-- Property id of `size`. -/
def PROP_SIZE : Nat := 2

/-- Property id of `mountpoint`. -/
def PROP_MOUNTPOINT : Nat := 3

/-- The macro `DEFAULT_NAME`. -/
def DEFAULT_NAME : List Char := "Root".toList

/-- The macro `DEFAULT_SIZE`. -/
def DEFAULT_SIZE : List Char := "0 GB".toList

/-- The macro `DEFAULT_MOUNTPOINT`. -/
def DEFAULT_MOUNTPOINT : List Char := "/".toList

/-- The format string used for the name label and for the size label. -/
def FORMAT_BOLD : List Char :=
  "<span fgcolor='black' size='large' weight='bold'>%s</span>".toList

/-- The format string used for the mountpoint label. -/
def FORMAT_GREY : List Char :=
  "<span fgcolor='grey' size='small'>%s</span>".toList

/-! ## Toolkit model: markup escaping -/

/-- The apostrophe character (code point 39). -/
def APOS : Char := Char.ofNat 39

/-- The double quote character (code point 34). -/
def QUOT : Char := Char.ofNat 34

/-- Modelled from the spec: GLib's markup escaping is not part of the sources.
One character of text as it is written into markup: each of the five markup
metacharacters becomes its entity, any other character is copied. -/
def escapeChar (c : Char) : List Char :=
  if c = '&' then "&amp;".toList
  else if c = '<' then "&lt;".toList
  else if c = '>' then "&gt;".toList
  else if c = APOS then "&apos;".toList
  else if c = QUOT then "&quot;".toList
  else [c]

/-- Modelled from the spec: `g_markup_escape_text` of GLib, character by
character. -/
def g_markup_escape_text : List Char → List Char
  | [] => []
  | c :: r => escapeChar c ++ g_markup_escape_text r

/-- Modelled from the spec: `g_markup_printf_escaped` of GLib for a format
with one `%s` conversion and its one string argument: the format is copied up
to the conversion, the escaped argument is inserted, and the rest of the
format is copied. -/
def g_markup_printf_escaped : List Char → List Char → List Char
  | [], _ => []
  | [c], _ => [c]
  | c :: d :: r, arg =>
    if c = '%' ∧ d = 's' then g_markup_escape_text arg ++ r
    else c :: g_markup_printf_escaped (d :: r) arg

/-! ## Toolkit model: markup parsing -/

/-- Where the markup parser is: in text, inside a tag, inside a quoted
attribute value of a tag, or inside an entity whose name read so far is kept
(last character first). -/
inductive ParseState where
  | text
  | tag
  | tagSQ
  | tagDQ
  | entity (acc : List Char)
  deriving DecidableEq

/-- The character an entity name stands for, if it is one of the five
predefined entities. -/
def entityChar (name : List Char) : Option Char :=
  if name = "amp".toList then some '&'
  else if name = "lt".toList then some '<'
  else if name = "gt".toList then some '>'
  else if name = "apos".toList then some APOS
  else if name = "quot".toList then some QUOT
  else none

/-- Modelled from the spec: the markup parser behind `gtk_label_set_markup`
is not part of the sources.  It yields the text of a markup string: tags are
dropped, entities are decoded, every other character is kept.  A tag or an
entity that is not closed, or an entity with an unknown name, is a parse
error (`none`). -/
def parseFrom : List Char → ParseState → Option (List Char)
  | [], .text => some []
  | [], _ => none
  | c :: r, .text =>
    if c = '<' then parseFrom r .tag
    else if c = '&' then parseFrom r (.entity [])
    else (parseFrom r .text).map (fun t => c :: t)
  | c :: r, .tag =>
    if c = '>' then parseFrom r .text
    else if c = APOS then parseFrom r .tagSQ
    else if c = QUOT then parseFrom r .tagDQ
    else parseFrom r .tag
  | c :: r, .tagSQ =>
    if c = APOS then parseFrom r .tag else parseFrom r .tagSQ
  | c :: r, .tagDQ =>
    if c = QUOT then parseFrom r .tag else parseFrom r .tagDQ
  | c :: r, .entity acc =>
    if c = ';' then
      match entityChar acc.reverse with
      | some e => (parseFrom r .text).map (fun t => e :: t)
      | none => none
    else parseFrom r (.entity (c :: acc))

/-- Modelled from the spec: `pango_parse_markup`, the text of a whole markup
string. -/
def pango_parse_markup (markup : List Char) : Option (List Char) :=
  parseFrom markup .text

/-! ## Toolkit model: labels -/

/-- A `GtkLabel`: the string it was given (`label`, markup included) and the
text it displays (`text`). -/
structure GtkLabel where
  label : List Char
  text : List Char
  deriving DecidableEq

/-- Modelled from the spec: `gtk_label_new`; a `NULL` string gives an empty
label. -/
def gtk_label_new (str : Option (List Char)) : GtkLabel :=
  match str with
  | some s => { label := s, text := s }
  | none => { label := [], text := [] }

/-- Modelled from the spec: `gtk_label_set_markup`.  The label keeps the
markup string; its text becomes the parsed text, or stays as it was when the
markup does not parse. -/
def gtk_label_set_markup (l : GtkLabel) (str : List Char) : GtkLabel :=
  match pango_parse_markup str with
  | some t => { label := str, text := t }
  | none => { label := str, text := l.text }

/-- Modelled from the spec: `gtk_label_get_text`, the displayed text without
markup. -/
def gtk_label_get_text (l : GtkLabel) : List Char := l.text

/-! ## The widget -/

/-- The widget instance: the three labels of `_AnacondaMountpointSelectorPrivate`
and the state flags of the underlying `GtkWidget` (32 bits). -/
structure AnacondaMountpointSelector where
  name_label : GtkLabel
  size_label : GtkLabel
  mountpoint_label : GtkLabel
  state_flags : Nat
  deriving DecidableEq

/-- A `GValue` holding a string: `none` is the `NULL` string. -/
abbrev GValue := Option (List Char)

/-- Modelled from the spec: `g_value_set_string` stores a copy of the string. -/
def g_value_set_string (_value : GValue) (s : List Char) : GValue := some s

/-- The function `anaconda_mountpoint_selector_init`.  The macro `_()` of
`intl.h` (message translation) is the parameter `gettext`.  The third
`gtk_label_set_markup` call and the alignment call after it are made on
`name_label`, as in the source. -/
def anaconda_mountpoint_selector_init (gettext : List Char → List Char)
    (mountpoint : AnacondaMountpointSelector) : AnacondaMountpointSelector :=
  -- Create the name label.
  let w := { mountpoint with name_label := gtk_label_new none }
  let markup := g_markup_printf_escaped FORMAT_BOLD (gettext DEFAULT_NAME)
  let w := { w with name_label := gtk_label_set_markup w.name_label markup }
  -- Create the size label.
  let w := { w with size_label := gtk_label_new none }
  let markup := g_markup_printf_escaped FORMAT_BOLD (gettext DEFAULT_SIZE)
  let w := { w with size_label := gtk_label_set_markup w.size_label markup }
  -- Create the mountpoint label.
  let w := { w with mountpoint_label := gtk_label_new none }
  let markup := g_markup_printf_escaped FORMAT_GREY (gettext DEFAULT_MOUNTPOINT)
  let w := { w with name_label := gtk_label_set_markup w.name_label markup }
  w

/-- The function `anaconda_mountpoint_selector_get_property`: the new content
of `value`.  An id outside the three cases of the `switch` leaves it as it is. -/
def anaconda_mountpoint_selector_get_property (widget : AnacondaMountpointSelector)
    (prop_id : Nat) (value : GValue) : GValue :=
  if prop_id = PROP_NAME then
    g_value_set_string value (gtk_label_get_text widget.name_label)
  else if prop_id = PROP_SIZE then
    g_value_set_string value (gtk_label_get_text widget.size_label)
  else if prop_id = PROP_MOUNTPOINT then
    g_value_set_string value (gtk_label_get_text widget.mountpoint_label)
  else value

/-- The function `anaconda_mountpoint_selector_set_property`, for a `value`
holding a non-`NULL` string.  An id outside the three cases of the `switch`
leaves the widget as it is. -/
def anaconda_mountpoint_selector_set_property (widget : AnacondaMountpointSelector)
    (prop_id : Nat) (value : List Char) : AnacondaMountpointSelector :=
  if prop_id = PROP_NAME then
    let markup := g_markup_printf_escaped FORMAT_BOLD value
    { widget with name_label := gtk_label_set_markup widget.name_label markup }
  else if prop_id = PROP_SIZE then
    let markup := g_markup_printf_escaped FORMAT_BOLD value
    { widget with size_label := gtk_label_set_markup widget.size_label markup }
  else if prop_id = PROP_MOUNTPOINT then
    let markup := g_markup_printf_escaped FORMAT_GREY value
    { widget with mountpoint_label := gtk_label_set_markup widget.mountpoint_label markup }
  else widget

/-- A `GdkEventFocus`: the field `in` (a 16-bit integer, non-zero when focus
is gained). -/
structure GdkEventFocus where
  in_ : Int
  deriving DecidableEq

/-- Modelled from the spec: `gtk_widget_get_state_flags`. -/
def gtk_widget_get_state_flags (widget : AnacondaMountpointSelector) : Nat :=
  widget.state_flags

/-- Modelled from the spec: `gtk_widget_set_state_flags`; with `clear` the
flags are replaced, without it the given flags are turned on. -/
def gtk_widget_set_state_flags (widget : AnacondaMountpointSelector) (flags : Nat)
    (clear : Bool) : AnacondaMountpointSelector :=
  if clear then { widget with state_flags := flags }
  else { widget with state_flags := widget.state_flags ||| flags }

/-- The 32-bit complement `~x`. -/
def complement32 (x : Nat) : Nat := (2 ^ 32 - 1) ^^^ (x % 2 ^ 32)

/-- The function `anaconda_mountpoint_selector_focus_changed`: the widget after
the call and the value returned.  The constant `GTK_STATE_FOCUSED` of the
toolkit headers is a parameter. -/
def anaconda_mountpoint_selector_focus_changed (GTK_STATE_FOCUSED : Nat)
    (widget : AnacondaMountpointSelector) (event : GdkEventFocus) :
    AnacondaMountpointSelector × Bool :=
  let new_state := gtk_widget_get_state_flags widget &&& complement32 GTK_STATE_FOCUSED
  let new_state := if event.in_ ≠ 0 then new_state ||| GTK_STATE_FOCUSED else new_state
  (gtk_widget_set_state_flags widget new_state true, false)

/-- A sequence of `set_property` calls, each a property id and a value,
applied from left to right. -/
def setAll (widget : AnacondaMountpointSelector) :
    List (Nat × List Char) → AnacondaMountpointSelector
  | [] => widget
  | (prop_id, value) :: rest =>
    setAll (anaconda_mountpoint_selector_set_property widget prop_id value) rest

/-- The value passed by the last call for `prop_id` in a sequence of calls, if
there is one. -/
def lastValue (prop_id : Nat) : List (Nat × List Char) → Option (List Char)
  | [] => none
  | (p, v) :: rest =>
    match lastValue prop_id rest with
    | some u => some u
    | none => if p = prop_id then some v else none

/-- The opening tag of `FORMAT_BOLD`. -/
def OPEN_BOLD : List Char := "<span fgcolor='black' size='large' weight='bold'>".toList

/-- The opening tag of `FORMAT_GREY`. -/
def OPEN_GREY : List Char := "<span fgcolor='grey' size='small'>".toList

/-- The closing tag of both formats. -/
def CLOSE_SPAN : List Char := "</span>".toList

/-- An instance as the object system hands it to the init function: no label
content, no state flag. -/
def freshInstance : AnacondaMountpointSelector :=
  { name_label := gtk_label_new none
    size_label := gtk_label_new none
    mountpoint_label := gtk_label_new none
    state_flags := 0 }

/-- The style property of the data model: every label's markup string is its
fixed template around the escaped text the label shows. -/
def StyleInvariant (w : AnacondaMountpointSelector) : Prop :=
  w.name_label.label
      = OPEN_BOLD ++ (g_markup_escape_text (gtk_label_get_text w.name_label) ++ CLOSE_SPAN) ∧
  w.size_label.label
      = OPEN_BOLD ++ (g_markup_escape_text (gtk_label_get_text w.size_label) ++ CLOSE_SPAN) ∧
  w.mountpoint_label.label
      = OPEN_GREY ++ (g_markup_escape_text (gtk_label_get_text w.mountpoint_label) ++ CLOSE_SPAN)

/-- Whether the characters after an ampersand are the name of one of the five
predefined entities followed by a semicolon. -/
def startsEntity (post : List Char) : Bool :=
  "amp;".toList.isPrefixOf post || "lt;".toList.isPrefixOf post
    || "gt;".toList.isPrefixOf post || "apos;".toList.isPrefixOf post
    || "quot;".toList.isPrefixOf post

/-- Whether a piece of markup has no raw `<`, no raw `>`, and no `&` other
than one that starts a predefined entity. -/
def noRawMarkup : List Char → Bool
  | [] => true
  | c :: r =>
    (c != '<') && (c != '>') && ((c != '&') || startsEntity r) && noRawMarkup r

/-- The value used to probe markup injection. -/
def INJECTION_PROBE : List Char := "<b>a&b</b>".toList

/-! ## Lemmas on the toolkit model -/

theorem printf_bold (v : List Char) :
    g_markup_printf_escaped FORMAT_BOLD v
      = OPEN_BOLD ++ (g_markup_escape_text v ++ CLOSE_SPAN) := rfl

theorem printf_grey (v : List Char) :
    g_markup_printf_escaped FORMAT_GREY v
      = OPEN_GREY ++ (g_markup_escape_text v ++ CLOSE_SPAN) := rfl

theorem parseFrom_open_bold (rest : List Char) :
    parseFrom (OPEN_BOLD ++ rest) .text = parseFrom rest .text := rfl

theorem parseFrom_open_grey (rest : List Char) :
    parseFrom (OPEN_GREY ++ rest) .text = parseFrom rest .text := rfl

theorem parseFrom_close : parseFrom CLOSE_SPAN .text = some [] := by decide

theorem parseFrom_escapeChar (c : Char) (rest : List Char) :
    parseFrom (escapeChar c ++ rest) .text
      = (parseFrom rest .text).map (fun t => c :: t) := by
  unfold escapeChar
  split_ifs with h1 h2 h3 h4 h5
  · subst h1; rfl
  · subst h2; rfl
  · subst h3; rfl
  · subst h4; rfl
  · subst h5; rfl
  · simp [parseFrom, h1, h2]

theorem parseFrom_escape (v rest : List Char) :
    parseFrom (g_markup_escape_text v ++ rest) .text
      = (parseFrom rest .text).map (fun t => v ++ t) := by
  induction v with
  | nil => simp [g_markup_escape_text]
  | cons c r ih =>
    rw [g_markup_escape_text, List.append_assoc, parseFrom_escapeChar, ih]
    cases parseFrom rest .text <;> simp

theorem parse_printf_bold (v : List Char) :
    pango_parse_markup (g_markup_printf_escaped FORMAT_BOLD v) = some v := by
  rw [printf_bold, pango_parse_markup, parseFrom_open_bold, parseFrom_escape, parseFrom_close]
  simp

theorem parse_printf_grey (v : List Char) :
    pango_parse_markup (g_markup_printf_escaped FORMAT_GREY v) = some v := by
  rw [printf_grey, pango_parse_markup, parseFrom_open_grey, parseFrom_escape, parseFrom_close]
  simp

theorem set_markup_bold (l : GtkLabel) (v : List Char) :
    gtk_label_set_markup l (g_markup_printf_escaped FORMAT_BOLD v)
      = { label := OPEN_BOLD ++ (g_markup_escape_text v ++ CLOSE_SPAN), text := v } := by
  rw [gtk_label_set_markup, parse_printf_bold, printf_bold]

theorem set_markup_grey (l : GtkLabel) (v : List Char) :
    gtk_label_set_markup l (g_markup_printf_escaped FORMAT_GREY v)
      = { label := OPEN_GREY ++ (g_markup_escape_text v ++ CLOSE_SPAN), text := v } := by
  rw [gtk_label_set_markup, parse_printf_grey, printf_grey]

theorem get_name (w : AnacondaMountpointSelector) (value : GValue) :
    anaconda_mountpoint_selector_get_property w PROP_NAME value = some w.name_label.text := by
  simp [anaconda_mountpoint_selector_get_property, g_value_set_string, gtk_label_get_text]

theorem get_size (w : AnacondaMountpointSelector) (value : GValue) :
    anaconda_mountpoint_selector_get_property w PROP_SIZE value = some w.size_label.text := by
  simp [anaconda_mountpoint_selector_get_property, g_value_set_string, gtk_label_get_text,
    PROP_SIZE, PROP_NAME]

theorem get_mountpoint (w : AnacondaMountpointSelector) (value : GValue) :
    anaconda_mountpoint_selector_get_property w PROP_MOUNTPOINT value
      = some w.mountpoint_label.text := by
  simp [anaconda_mountpoint_selector_get_property, g_value_set_string, gtk_label_get_text,
    PROP_SIZE, PROP_NAME, PROP_MOUNTPOINT]

theorem set_name (w : AnacondaMountpointSelector) (v : List Char) :
    anaconda_mountpoint_selector_set_property w PROP_NAME v
      = { w with name_label :=
            { label := OPEN_BOLD ++ (g_markup_escape_text v ++ CLOSE_SPAN), text := v } } := by
  simp [anaconda_mountpoint_selector_set_property, set_markup_bold]

theorem set_size (w : AnacondaMountpointSelector) (v : List Char) :
    anaconda_mountpoint_selector_set_property w PROP_SIZE v
      = { w with size_label :=
            { label := OPEN_BOLD ++ (g_markup_escape_text v ++ CLOSE_SPAN), text := v } } := by
  simp [anaconda_mountpoint_selector_set_property, set_markup_bold, PROP_SIZE, PROP_NAME]

theorem set_mountpoint (w : AnacondaMountpointSelector) (v : List Char) :
    anaconda_mountpoint_selector_set_property w PROP_MOUNTPOINT v
      = { w with mountpoint_label :=
            { label := OPEN_GREY ++ (g_markup_escape_text v ++ CLOSE_SPAN), text := v } } := by
  simp [anaconda_mountpoint_selector_set_property, set_markup_grey, PROP_SIZE, PROP_NAME,
    PROP_MOUNTPOINT]

theorem set_other (w : AnacondaMountpointSelector) (p : Nat) (v : List Char)
    (h1 : p ≠ PROP_NAME) (h2 : p ≠ PROP_SIZE) (h3 : p ≠ PROP_MOUNTPOINT) :
    anaconda_mountpoint_selector_set_property w p v = w := by
  simp [anaconda_mountpoint_selector_set_property, h1, h2, h3]

theorem init_eq (gettext : List Char → List Char) (w0 : AnacondaMountpointSelector) :
    anaconda_mountpoint_selector_init gettext w0
      = { name_label :=
            { label := OPEN_GREY ++ (g_markup_escape_text (gettext DEFAULT_MOUNTPOINT) ++ CLOSE_SPAN)
              text := gettext DEFAULT_MOUNTPOINT }
          size_label :=
            { label := OPEN_BOLD ++ (g_markup_escape_text (gettext DEFAULT_SIZE) ++ CLOSE_SPAN)
              text := gettext DEFAULT_SIZE }
          mountpoint_label := { label := [], text := [] }
          state_flags := w0.state_flags } := by
  simp [anaconda_mountpoint_selector_init, set_markup_bold, set_markup_grey, gtk_label_new]

/-! ## Lemmas on the widget's functions -/

theorem get_set_same (w : AnacondaMountpointSelector) (p : Nat) (v : List Char) (value : GValue)
    (hp : p = PROP_NAME ∨ p = PROP_SIZE ∨ p = PROP_MOUNTPOINT) :
    anaconda_mountpoint_selector_get_property
      (anaconda_mountpoint_selector_set_property w p v) p value = some v := by
  rcases hp with h | h | h <;> subst h
  · rw [set_name, get_name]
  · rw [set_size, get_size]
  · rw [set_mountpoint, get_mountpoint]

theorem get_set_other (w : AnacondaMountpointSelector) (p q : Nat) (v : List Char)
    (value : GValue) (hq : q ≠ p) :
    anaconda_mountpoint_selector_get_property
      (anaconda_mountpoint_selector_set_property w p v) q value
      = anaconda_mountpoint_selector_get_property w q value := by
  by_cases h1 : p = PROP_NAME
  · subst h1
    rw [set_name]
    simp [anaconda_mountpoint_selector_get_property, hq]
  · by_cases h2 : p = PROP_SIZE
    · subst h2
      rw [set_size]
      simp [anaconda_mountpoint_selector_get_property, hq]
    · by_cases h3 : p = PROP_MOUNTPOINT
      · subst h3
        rw [set_mountpoint]
        simp [anaconda_mountpoint_selector_get_property, hq]
      · rw [set_other w p v h1 h2 h3]

theorem get_setAll_untouched (p : Nat) (value : GValue) (calls : List (Nat × List Char)) :
    ∀ w : AnacondaMountpointSelector, lastValue p calls = none →
      anaconda_mountpoint_selector_get_property (setAll w calls) p value
        = anaconda_mountpoint_selector_get_property w p value := by
  induction calls with
  | nil => intro w _; rfl
  | cons c rest ih =>
    obtain ⟨q, u⟩ := c
    intro w h
    simp only [lastValue] at h
    cases hr : lastValue p rest with
    | some x => simp [hr] at h
    | none =>
      simp only [hr] at h
      have hq : p ≠ q := by
        intro e
        simp [e] at h
      simp only [setAll]
      rw [ih _ hr, get_set_other w q p u value hq]

theorem testBit_complement32 (m i : Nat) :
    (complement32 m).testBit i = (decide (i < 32) && !m.testBit i) := by
  unfold complement32
  rw [Nat.testBit_xor, Nat.testBit_two_pow_sub_one, Nat.testBit_mod_two_pow]
  cases decide (i < 32) <;> simp

theorem escape_no_lt (v : List Char) : '<' ∉ g_markup_escape_text v := by
  induction v with
  | nil => simp [g_markup_escape_text]
  | cons c r ih =>
    rw [g_markup_escape_text, List.mem_append]
    rintro (h | h)
    · unfold escapeChar at h
      split_ifs at h with h1 h2 h3 h4 h5
      · revert h; decide
      · revert h; decide
      · revert h; decide
      · revert h; decide
      · revert h; decide
      · simp at h; exact h2 h.symm
    · exact ih h

theorem escape_no_gt (v : List Char) : '>' ∉ g_markup_escape_text v := by
  induction v with
  | nil => simp [g_markup_escape_text]
  | cons c r ih =>
    rw [g_markup_escape_text, List.mem_append]
    rintro (h | h)
    · unfold escapeChar at h
      split_ifs at h with h1 h2 h3 h4 h5
      · revert h; decide
      · revert h; decide
      · revert h; decide
      · revert h; decide
      · revert h; decide
      · simp at h; exact h3 h.symm
    · exact ih h

theorem noRawMarkup_escapeChar (c : Char) (rest : List Char) :
    noRawMarkup (escapeChar c ++ rest) = noRawMarkup rest := by
  unfold escapeChar
  split_ifs with h1 h2 h3 h4 h5
  · subst h1; simp [noRawMarkup, startsEntity, List.isPrefixOf]
  · subst h2; simp [noRawMarkup, startsEntity, List.isPrefixOf]
  · subst h3; simp [noRawMarkup, startsEntity, List.isPrefixOf]
  · subst h4; simp [noRawMarkup, startsEntity, List.isPrefixOf, APOS]
  · subst h5; simp [noRawMarkup, startsEntity, List.isPrefixOf]
  · simp [noRawMarkup, h1, h2, h3]

theorem noRawMarkup_escape (v : List Char) : noRawMarkup (g_markup_escape_text v) = true := by
  induction v with
  | nil => rfl
  | cons c r ih => rw [g_markup_escape_text, noRawMarkup_escapeChar, ih]

/-! ## The claims -/

/-- C1. Round trip: for each of the three properties, in every widget state
and for every string `v`, `set_property` with `v` followed by `get_property`
yields exactly `v`. -/
theorem set_get_round_trip (w : AnacondaMountpointSelector) (v : List Char) (value : GValue) :
    anaconda_mountpoint_selector_get_property
        (anaconda_mountpoint_selector_set_property w PROP_NAME v) PROP_NAME value = some v ∧
    anaconda_mountpoint_selector_get_property
        (anaconda_mountpoint_selector_set_property w PROP_SIZE v) PROP_SIZE value = some v ∧
    anaconda_mountpoint_selector_get_property
        (anaconda_mountpoint_selector_set_property w PROP_MOUNTPOINT v) PROP_MOUNTPOINT value
      = some v :=
  ⟨get_set_same w _ v value (Or.inl rfl), get_set_same w _ v value (Or.inr (Or.inl rfl)),
    get_set_same w _ v value (Or.inr (Or.inr rfl))⟩

/-- C2 (what the code does). On a widget that has just been constructed, with
untranslated messages, `get_property` yields "/" for the name, "0 GB" for the
size and the empty string for the mountpoint: the third markup call of the
init function writes to the name label, so the defaults "Root" and "/" are not
what the name and the mountpoint read back. -/
theorem init_defaults_observed (w0 : AnacondaMountpointSelector) (value : GValue) :
    anaconda_mountpoint_selector_get_property
        (anaconda_mountpoint_selector_init id w0) PROP_NAME value = some "/".toList ∧
    anaconda_mountpoint_selector_get_property
        (anaconda_mountpoint_selector_init id w0) PROP_SIZE value = some "0 GB".toList ∧
    anaconda_mountpoint_selector_get_property
        (anaconda_mountpoint_selector_init id w0) PROP_MOUNTPOINT value = some [] ∧
    anaconda_mountpoint_selector_get_property
        (anaconda_mountpoint_selector_init id w0) PROP_NAME value ≠ some DEFAULT_NAME ∧
    anaconda_mountpoint_selector_get_property
        (anaconda_mountpoint_selector_init id w0) PROP_MOUNTPOINT value
      ≠ some DEFAULT_MOUNTPOINT := by
  rw [get_name, get_size, get_mountpoint, init_eq]
  dsimp only
  decide

/-- C3. Focus flag: whatever the state flags were, after the handler has run
on a focus-gained event (`in` non-zero) every bit of `GTK_STATE_FOCUSED` is
set in the widget's state flags, and after a focus-lost event (`in` zero) every
bit of it is clear. -/
theorem focus_changed_flag (GTK_STATE_FOCUSED : Nat) (w : AnacondaMountpointSelector)
    (event : GdkEventFocus) :
    (anaconda_mountpoint_selector_focus_changed GTK_STATE_FOCUSED w event).1.state_flags
        &&& GTK_STATE_FOCUSED
      = if event.in_ ≠ 0 then GTK_STATE_FOCUSED else 0 := by
  apply Nat.eq_of_testBit_eq
  intro i
  by_cases h : event.in_ = 0
  · simp [anaconda_mountpoint_selector_focus_changed, gtk_widget_set_state_flags,
      gtk_widget_get_state_flags, h, Nat.testBit_and, testBit_complement32]
  · simp [anaconda_mountpoint_selector_focus_changed, gtk_widget_set_state_flags,
      gtk_widget_get_state_flags, h, Nat.testBit_and, Nat.testBit_or, testBit_complement32]
    intro hm
    exact Or.inr hm

/-- C4. The focus handler never consumes the event: in every widget state and
for every focus event it returns FALSE. -/
theorem focus_changed_returns_false (GTK_STATE_FOCUSED : Nat) (w : AnacondaMountpointSelector)
    (event : GdkEventFocus) :
    (anaconda_mountpoint_selector_focus_changed GTK_STATE_FOCUSED w event).2 = false := rfl

/-- C5 (what the code does). Right after construction the style property does
not hold: the name label carries the grey/small template around the default
mountpoint, and the mountpoint label has no markup at all. The size label is
as the property says. -/
theorem init_style_observed (w0 : AnacondaMountpointSelector) :
    ¬ StyleInvariant (anaconda_mountpoint_selector_init id w0) ∧
    (anaconda_mountpoint_selector_init id w0).name_label.label
      = "<span fgcolor='grey' size='small'>/</span>".toList ∧
    (anaconda_mountpoint_selector_init id w0).mountpoint_label.label = [] ∧
    (anaconda_mountpoint_selector_init id w0).size_label.label
      = "<span fgcolor='black' size='large' weight='bold'>0 GB</span>".toList := by
  rw [init_eq]
  unfold StyleInvariant gtk_label_get_text
  dsimp only
  refine ⟨?_, by decide, rfl, by decide⟩
  intro h
  exact absurd h.1 (by decide)

/-- C6. No validation: for each of the three properties and every string `v`,
the empty string included, the markup built from `v` parses (the label never
keeps its old text), `set_property` installs `v` as the label's text, and
after `set_property` with the empty string `get_property` yields the empty
string. -/
theorem set_property_accepts_any_string (w : AnacondaMountpointSelector) (v : List Char)
    (value : GValue) :
    (pango_parse_markup (g_markup_printf_escaped FORMAT_BOLD v) = some v ∧
      pango_parse_markup (g_markup_printf_escaped FORMAT_GREY v) = some v) ∧
    (gtk_label_get_text (anaconda_mountpoint_selector_set_property w PROP_NAME v).name_label = v ∧
      gtk_label_get_text (anaconda_mountpoint_selector_set_property w PROP_SIZE v).size_label = v ∧
      gtk_label_get_text
        (anaconda_mountpoint_selector_set_property w PROP_MOUNTPOINT v).mountpoint_label = v) ∧
    (anaconda_mountpoint_selector_get_property
        (anaconda_mountpoint_selector_set_property w PROP_NAME []) PROP_NAME value = some [] ∧
      anaconda_mountpoint_selector_get_property
        (anaconda_mountpoint_selector_set_property w PROP_SIZE []) PROP_SIZE value = some [] ∧
      anaconda_mountpoint_selector_get_property
        (anaconda_mountpoint_selector_set_property w PROP_MOUNTPOINT []) PROP_MOUNTPOINT value
          = some []) := by
  refine ⟨⟨parse_printf_bold v, parse_printf_grey v⟩, ⟨?_, ?_, ?_⟩, ⟨?_, ?_, ?_⟩⟩
  · rw [set_name]; rfl
  · rw [set_size]; rfl
  · rw [set_mountpoint]; rfl
  · rw [set_name, get_name]
  · rw [set_size, get_size]
  · rw [set_mountpoint, get_mountpoint]

/-- C7. Last write wins: from every starting state and for every finite
sequence of `set_property` calls, if the sequence has a call for property `p`
(one of the three), then `get_property` of `p` after the whole sequence yields
the value of the last call for `p`, whatever the calls for other properties. -/
theorem last_write_wins (w : AnacondaMountpointSelector) (calls : List (Nat × List Char))
    (p : Nat) (v : List Char) (value : GValue)
    (hp : p = PROP_NAME ∨ p = PROP_SIZE ∨ p = PROP_MOUNTPOINT)
    (hlast : lastValue p calls = some v) :
    anaconda_mountpoint_selector_get_property (setAll w calls) p value = some v := by
  induction calls generalizing w with
  | nil => simp [lastValue] at hlast
  | cons c rest ih =>
    obtain ⟨q, u⟩ := c
    simp only [lastValue] at hlast
    simp only [setAll]
    cases hr : lastValue p rest with
    | some x =>
      simp only [hr, Option.some.injEq] at hlast
      subst hlast
      exact ih _ hr
    | none =>
      simp only [hr] at hlast
      by_cases hq : q = p
      · simp only [hq, if_true, Option.some.injEq] at hlast
        subst hlast
        subst hq
        rw [get_setAll_untouched _ value rest _ hr]
        exact get_set_same w _ u value hp
      · simp [hq] at hlast

/-- Witness of C7: name set to "a", mountpoint to "x", name to "b", size to
"c"; the name reads back "b". -/
theorem last_write_wins_witness :
    (PROP_NAME = PROP_NAME ∨ PROP_NAME = PROP_SIZE ∨ PROP_NAME = PROP_MOUNTPOINT) ∧
    lastValue PROP_NAME
        [(PROP_NAME, "a".toList), (PROP_MOUNTPOINT, "x".toList), (PROP_NAME, "b".toList),
          (PROP_SIZE, "c".toList)] = some "b".toList ∧
    anaconda_mountpoint_selector_get_property
        (setAll freshInstance
          [(PROP_NAME, "a".toList), (PROP_MOUNTPOINT, "x".toList), (PROP_NAME, "b".toList),
            (PROP_SIZE, "c".toList)]) PROP_NAME none = some "b".toList :=
  ⟨Or.inl rfl, by decide,
    last_write_wins freshInstance _ PROP_NAME "b".toList none (Or.inl rfl) (by decide)⟩

/-- C8. Setter frame: `set_property` on property `p` leaves the state flags
and the labels of the other properties as they were, so `get_property` of any
other property yields what it yielded before; with an id that is none of the
three the widget is unchanged. -/
theorem set_property_frame (w : AnacondaMountpointSelector) (p : Nat) (v : List Char) :
    (anaconda_mountpoint_selector_set_property w p v).state_flags = w.state_flags ∧
    (p ≠ PROP_NAME →
      (anaconda_mountpoint_selector_set_property w p v).name_label = w.name_label) ∧
    (p ≠ PROP_SIZE →
      (anaconda_mountpoint_selector_set_property w p v).size_label = w.size_label) ∧
    (p ≠ PROP_MOUNTPOINT →
      (anaconda_mountpoint_selector_set_property w p v).mountpoint_label
        = w.mountpoint_label) ∧
    (∀ (q : Nat) (value : GValue), q ≠ p →
      anaconda_mountpoint_selector_get_property
          (anaconda_mountpoint_selector_set_property w p v) q value
        = anaconda_mountpoint_selector_get_property w q value) ∧
    (p ≠ PROP_NAME ∧ p ≠ PROP_SIZE ∧ p ≠ PROP_MOUNTPOINT →
      anaconda_mountpoint_selector_set_property w p v = w) := by
  refine ⟨?_, ?_, ?_, ?_, fun q value hq => get_set_other w p q v value hq,
    fun h => set_other w p v h.1 h.2.1 h.2.2⟩
  all_goals
    by_cases h1 : p = PROP_NAME
    · subst h1; rw [set_name] <;> simp [PROP_NAME, PROP_SIZE, PROP_MOUNTPOINT]
    · by_cases h2 : p = PROP_SIZE
      · subst h2; rw [set_size] <;> simp [PROP_NAME, PROP_SIZE, PROP_MOUNTPOINT]
      · by_cases h3 : p = PROP_MOUNTPOINT
        · subst h3; rw [set_mountpoint] <;> simp [PROP_NAME, PROP_SIZE, PROP_MOUNTPOINT]
        · rw [set_other w p v h1 h2 h3] <;> simp

/-- C9. Focus frame: for 32-bit state flags `f` and every focus event, the
flags the handler writes are `(f AND NOT FOCUSED) OR (FOCUSED if in else 0)`,
they agree with `f` on every bit outside `GTK_STATE_FOCUSED`, the three labels
are unchanged, and handling the same event a second time changes nothing. -/
theorem focus_changed_frame (GTK_STATE_FOCUSED : Nat) (w : AnacondaMountpointSelector)
    (event : GdkEventFocus) (hf : w.state_flags < 2 ^ 32) :
    (anaconda_mountpoint_selector_focus_changed GTK_STATE_FOCUSED w event).1.state_flags
        = (w.state_flags &&& complement32 GTK_STATE_FOCUSED)
            ||| (if event.in_ ≠ 0 then GTK_STATE_FOCUSED else 0) ∧
    (∀ i : Nat, GTK_STATE_FOCUSED.testBit i = false →
      (anaconda_mountpoint_selector_focus_changed GTK_STATE_FOCUSED w event).1.state_flags.testBit i
        = w.state_flags.testBit i) ∧
    ((anaconda_mountpoint_selector_focus_changed GTK_STATE_FOCUSED w event).1.name_label
        = w.name_label ∧
      (anaconda_mountpoint_selector_focus_changed GTK_STATE_FOCUSED w event).1.size_label
        = w.size_label ∧
      (anaconda_mountpoint_selector_focus_changed GTK_STATE_FOCUSED w event).1.mountpoint_label
        = w.mountpoint_label) ∧
    anaconda_mountpoint_selector_focus_changed GTK_STATE_FOCUSED
        (anaconda_mountpoint_selector_focus_changed GTK_STATE_FOCUSED w event).1 event
      = anaconda_mountpoint_selector_focus_changed GTK_STATE_FOCUSED w event := by
  have hbit : ∀ i : Nat, w.state_flags.testBit i = true → i < 32 := by
    intro i hi
    by_contra hge
    have hlt : w.state_flags < 2 ^ i :=
      lt_of_lt_of_le hf (Nat.pow_le_pow_right (by decide) (not_lt.mp hge))
    rw [Nat.testBit_lt_two_pow hlt] at hi
    exact Bool.false_ne_true hi
  refine ⟨?_, ?_, ⟨rfl, rfl, rfl⟩, ?_⟩
  · by_cases h : event.in_ = 0 <;>
      simp [anaconda_mountpoint_selector_focus_changed, gtk_widget_set_state_flags,
        gtk_widget_get_state_flags, h]
  · intro i hm
    by_cases h : event.in_ = 0
    · simp only [anaconda_mountpoint_selector_focus_changed, gtk_widget_set_state_flags,
        gtk_widget_get_state_flags, h, ne_eq, not_true_eq_false, if_false, if_true,
        Nat.testBit_and, testBit_complement32, hm, Bool.not_false, Bool.and_true]
      cases hb : w.state_flags.testBit i
      · simp
      · simp [hbit i hb]
    · simp only [anaconda_mountpoint_selector_focus_changed, gtk_widget_set_state_flags,
        gtk_widget_get_state_flags, h, ne_eq, not_false_eq_true, if_false, if_true,
        Nat.testBit_and, Nat.testBit_or, testBit_complement32, hm, Bool.not_false,
        Bool.and_true, Bool.or_false]
      cases hb : w.state_flags.testBit i
      · simp
      · simp [hbit i hb]
  · have hflags :
        (((w.state_flags &&& complement32 GTK_STATE_FOCUSED)
            ||| (if event.in_ ≠ 0 then GTK_STATE_FOCUSED else 0))
          &&& complement32 GTK_STATE_FOCUSED)
            ||| (if event.in_ ≠ 0 then GTK_STATE_FOCUSED else 0)
          = (w.state_flags &&& complement32 GTK_STATE_FOCUSED)
            ||| (if event.in_ ≠ 0 then GTK_STATE_FOCUSED else 0) := by
      apply Nat.eq_of_testBit_eq
      intro i
      by_cases h : event.in_ = 0
      · simp only [h, ne_eq, not_true_eq_false, if_false, Nat.testBit_or, Nat.testBit_and,
          testBit_complement32, Nat.zero_testBit, Bool.or_false]
        cases w.state_flags.testBit i <;> cases GTK_STATE_FOCUSED.testBit i <;>
          cases decide (i < 32) <;> rfl
      · simp only [h, ne_eq, not_false_eq_true, if_true, Nat.testBit_or, Nat.testBit_and,
          testBit_complement32]
        cases w.state_flags.testBit i <;> cases GTK_STATE_FOCUSED.testBit i <;>
          cases decide (i < 32) <;> rfl
    by_cases h : event.in_ = 0
    · have hflags0 := hflags
      simp only [h, ne_eq, not_true_eq_false, if_false, Nat.or_zero] at hflags0
      simp [anaconda_mountpoint_selector_focus_changed, gtk_widget_set_state_flags,
        gtk_widget_get_state_flags, h, hflags0]
    · have hflags1 := hflags
      simp only [h, ne_eq, not_false_eq_true, if_true] at hflags1
      simp [anaconda_mountpoint_selector_focus_changed, gtk_widget_set_state_flags,
        gtk_widget_get_state_flags, h, hflags1]

/-- Witness of C9: flags 7 and a focus-gained event with `GTK_STATE_FOCUSED`
taken as 32. -/
theorem focus_changed_frame_witness :
    ({ freshInstance with state_flags := 7 } : AnacondaMountpointSelector).state_flags < 2 ^ 32 ∧
    (anaconda_mountpoint_selector_focus_changed 32 { freshInstance with state_flags := 7 }
        { in_ := 1 }).1.state_flags = 39 ∧
    anaconda_mountpoint_selector_focus_changed 32
        (anaconda_mountpoint_selector_focus_changed 32 { freshInstance with state_flags := 7 }
          { in_ := 1 }).1 { in_ := 1 }
      = anaconda_mountpoint_selector_focus_changed 32 { freshInstance with state_flags := 7 }
          { in_ := 1 } :=
  ⟨by decide, by decide,
    (focus_changed_frame 32 { freshInstance with state_flags := 7 } { in_ := 1 }
      (by decide)).2.2.2⟩

/-- C10. No markup injection: the markup `set_property` gives a label is the
fixed opening tag, then the value with each of the five markup metacharacters
replaced by its entity, then the closing tag; the escaped value has no raw
`<`, no raw `>`, and no `&` that does not start an entity; and the value
`<b>a&b</b>` reads back as that same string, not as `a&b`. -/
theorem no_markup_injection (w : AnacondaMountpointSelector) (v : List Char) (value : GValue) :
    ((anaconda_mountpoint_selector_set_property w PROP_NAME v).name_label.label
        = OPEN_BOLD ++ (g_markup_escape_text v ++ CLOSE_SPAN) ∧
      (anaconda_mountpoint_selector_set_property w PROP_SIZE v).size_label.label
        = OPEN_BOLD ++ (g_markup_escape_text v ++ CLOSE_SPAN) ∧
      (anaconda_mountpoint_selector_set_property w PROP_MOUNTPOINT v).mountpoint_label.label
        = OPEN_GREY ++ (g_markup_escape_text v ++ CLOSE_SPAN)) ∧
    (escapeChar '&' = "&amp;".toList ∧ escapeChar '<' = "&lt;".toList ∧
      escapeChar '>' = "&gt;".toList ∧ escapeChar APOS = "&apos;".toList ∧
      escapeChar QUOT = "&quot;".toList ∧
      ∀ c : Char, c ≠ '&' → c ≠ '<' → c ≠ '>' → c ≠ APOS → c ≠ QUOT → escapeChar c = [c]) ∧
    ('<' ∉ g_markup_escape_text v ∧ '>' ∉ g_markup_escape_text v ∧
      noRawMarkup (g_markup_escape_text v) = true) ∧
    (anaconda_mountpoint_selector_get_property
        (anaconda_mountpoint_selector_set_property w PROP_NAME INJECTION_PROBE) PROP_NAME value
          = some "<b>a&b</b>".toList ∧
      anaconda_mountpoint_selector_get_property
        (anaconda_mountpoint_selector_set_property w PROP_SIZE INJECTION_PROBE) PROP_SIZE value
          = some "<b>a&b</b>".toList ∧
      anaconda_mountpoint_selector_get_property
        (anaconda_mountpoint_selector_set_property w PROP_MOUNTPOINT INJECTION_PROBE)
          PROP_MOUNTPOINT value = some "<b>a&b</b>".toList ∧
      anaconda_mountpoint_selector_get_property
        (anaconda_mountpoint_selector_set_property w PROP_NAME INJECTION_PROBE) PROP_NAME value
          ≠ some "a&b".toList) := by
  refine ⟨⟨?_, ?_, ?_⟩, ⟨by decide, by decide, by decide, by decide, by decide, ?_⟩,
    ⟨escape_no_lt v, escape_no_gt v, noRawMarkup_escape v⟩, ⟨?_, ?_, ?_, ?_⟩⟩
  · rw [set_name]
  · rw [set_size]
  · rw [set_mountpoint]
  · intro c h1 h2 h3 h4 h5
    simp [escapeChar, h1, h2, h3, h4, h5]
  · rw [set_name, get_name]; rfl
  · rw [set_size, get_size]; rfl
  · rw [set_mountpoint, get_mountpoint]; rfl
  · rw [set_name, get_name]; dsimp only; decide

end MountpointSelector
